import Mathlib

/-!
Shallow embedding of the `testangel-engine-http` crate
(`src/lib.rs` and `src/http_evidence.rs`).

Byte sequences are modelled as `List Nat` (each element < 256), text as
Lean `String`.  The external collaborators (the `url` crate's parser, the
reqwest transport) are passed in as oracle functions, matching the spec's
"opaque client capability" boundary; everything that the repository's own
two source files compute is translated definition-by-definition below.
-/

/-- `b` is a UTF-8 continuation byte (`0x80..=0xBF`). -/
def inRange (lo hi b : Nat) : Bool := decide (lo ≤ b ∧ b ≤ hi)

/-- Decode one UTF-8 encoded scalar value from the front of a byte list,
returning the code point and the remaining bytes; `none` if the prefix is
not well-formed UTF-8 (models the validation used by Rust
`String::from_utf8`). -/
def utf8Step : List Nat → Option (Nat × List Nat)
  | [] => none
  | b :: rest =>
    if b < 0x80 then some (b, rest)
    else if inRange 0xC2 0xDF b then
      match rest with
      | b1 :: r =>
        if inRange 0x80 0xBF b1 then some ((b - 0xC0) * 64 + (b1 - 0x80), r) else none
      | [] => none
    else if b = 0xE0 ∨ (0xE1 ≤ b ∧ b ≤ 0xEF) then
      let lo := if b = 0xE0 then 0xA0 else 0x80
      let hi := if b = 0xED then 0x9F else 0xBF
      match rest with
      | b1 :: b2 :: r =>
        if inRange lo hi b1 && inRange 0x80 0xBF b2 then
          some ((b - 0xE0) * 4096 + (b1 - 0x80) * 64 + (b2 - 0x80), r)
        else none
      | _ => none
    else if 0xF0 ≤ b ∧ b ≤ 0xF4 then
      let lo := if b = 0xF0 then 0x90 else 0x80
      let hi := if b = 0xF4 then 0x8F else 0xBF
      match rest with
      | b1 :: b2 :: b3 :: r =>
        if inRange lo hi b1 && inRange 0x80 0xBF b2 && inRange 0x80 0xBF b3 then
          some ((b - 0xF0) * 262144 + (b1 - 0x80) * 4096 + (b2 - 0x80) * 64 + (b3 - 0x80), r)
        else none
      | _ => none
    else none

/-- Fuelled strict UTF-8 decoding of a whole byte list (each `utf8Step`
consumes at least one byte, so fuel = length always suffices). -/
def utf8DecodeFuel : Nat → List Nat → Option (List Char)
  | _, [] => some []
  | 0, _ :: _ => none
  | fuel + 1, l =>
    match utf8Step l with
    | some (cp, rest) => (utf8DecodeFuel fuel rest).map (fun cs => Char.ofNat cp :: cs)
    | none => none

/-- Model of Rust `String::from_utf8`: the decoded string when the bytes
are valid UTF-8, `none` otherwise. -/
def utf8Decode (l : List Nat) : Option String :=
  (utf8DecodeFuel l.length l).map String.mk

/-- Number of bytes of an invalid maximal subpart at the front of the
list (Rust `Utf8Error::error_len` semantics: the lead byte plus any
continuation bytes that were individually acceptable). -/
def invalidLen : List Nat → Nat
  | [] => 1
  | b :: rest =>
    if b < 0x80 then 1
    else if inRange 0xC2 0xDF b then 1
    else if b = 0xE0 ∨ (0xE1 ≤ b ∧ b ≤ 0xEF) then
      let lo := if b = 0xE0 then 0xA0 else 0x80
      let hi := if b = 0xED then 0x9F else 0xBF
      match rest with
      | b1 :: _ => if inRange lo hi b1 then 2 else 1
      | [] => 1
    else if 0xF0 ≤ b ∧ b ≤ 0xF4 then
      let lo := if b = 0xF0 then 0x90 else 0x80
      let hi := if b = 0xF4 then 0x8F else 0xBF
      match rest with
      | b1 :: b2 :: _ =>
        if inRange lo hi b1 then (if inRange 0x80 0xBF b2 then 3 else 2) else 1
      | [b1] => if inRange lo hi b1 then 2 else 1
      | [] => 1
    else 1

/-- Fuelled lossy UTF-8 decoding: invalid maximal subparts are replaced
with U+FFFD. -/
def utf8LossyFuel : Nat → List Nat → List Char
  | _, [] => []
  | 0, _ :: _ => []
  | fuel + 1, l =>
    match utf8Step l with
    | some (cp, rest) => Char.ofNat cp :: utf8LossyFuel fuel rest
    | none => Char.ofNat 0xFFFD :: utf8LossyFuel fuel (l.drop (invalidLen l))

/-- Model of Rust `String::from_utf8_lossy`: replacement-character
substitution for invalid sequences. -/
def utf8Lossy (l : List Nat) : String :=
  String.mk (utf8LossyFuel l.length l)

/-- UTF-8 encoding of one character. -/
def utf8EncodeChar (c : Char) : List Nat :=
  let n := c.toNat
  if n < 0x80 then [n]
  else if n < 0x800 then [0xC0 + n / 64, 0x80 + n % 64]
  else if n < 0x10000 then [0xE0 + n / 4096, 0x80 + n / 64 % 64, 0x80 + n % 64]
  else [0xF0 + n / 262144, 0x80 + n / 4096 % 64, 0x80 + n / 64 % 64, 0x80 + n % 64]

/-- The UTF-8 bytes of a Rust `String` (model of `str::as_bytes`). -/
def strBytes (s : String) : List Nat :=
  (s.data.map utf8EncodeChar).flatten

/-- `http::HeaderValue::to_str` accepts exactly the visible-ASCII bytes
(32..=126) plus horizontal tab. -/
def isVisibleAscii (b : Nat) : Bool := decide ((32 ≤ b ∧ b < 127) ∨ b = 9)

/-- Model of `http::HeaderValue::to_str`: the value rendered as text when
every byte is visible ASCII (or tab), `none` otherwise. -/
def headerValueToStr (v : List Nat) : Option String :=
  if v.all isVisibleAscii then some (String.mk (v.map Char.ofNat)) else none

/-- ASCII lowercasing of one character, as `http::HeaderName` parsing
applies to header names. -/
def asciiLowerChar (c : Char) : Char :=
  if 'A' ≤ c ∧ c ≤ 'Z' then Char.ofNat (c.toNat + 32) else c

/-- ASCII lowercasing of a string (header-name normalisation). -/
def asciiLower (s : String) : String := String.mk (s.data.map asciiLowerChar)

/-- Model of `http::HeaderMap`: the dense entry list, in iteration order
(first-insertion order of each name, duplicate values grouped).  Names are
stored lowercased, as `HeaderName` guarantees. -/
structure HeaderMapM where
  entries : List (String × List Nat)
deriving DecidableEq

/-- Insert `(n, v)` directly after the last entry named `n`, or at the end
when no entry is named `n`: the iteration-order effect of
`HeaderMap::append`. -/
def insertAfterLast : List (String × List Nat) → String → List Nat → List (String × List Nat)
  | [], n, v => [(n, v)]
  | e :: rest, n, v =>
    if e.1 = n ∧ ¬ rest.any (fun x => x.1 = n) then e :: (n, v) :: rest
    else e :: insertAfterLast rest n v

/-- Model of `HeaderMap::append` (name already lowercased by the caller,
as `HeaderName` parsing does). -/
def HeaderMapM.append (m : HeaderMapM) (name : String) (v : List Nat) : HeaderMapM :=
  ⟨insertAfterLast m.entries name v⟩

/-- Model of `HeaderMap::contains_key`, with the key normalised the way
`HeaderName` parsing lowercases it. -/
def HeaderMapM.containsKey (m : HeaderMapM) (name : String) : Bool :=
  m.entries.any (fun e => e.1 = asciiLower name)

/-- Model of `HeaderMap::get`: the first value stored under the
(case-insensitively matched) name. -/
def HeaderMapM.get (m : HeaderMapM) (name : String) : Option (List Nat) :=
  (m.entries.find? (fun e => e.1 = asciiLower name)).map (fun e => e.2)

/-- HTTP method of a request (`reqwest::Method`, the six the engine
exposes). -/
inductive Method where
  | get | head | post | put | patch | delete
deriving DecidableEq

/-- `Display` rendering of `Method`. -/
def methodStr : Method → String
  | .get => "GET"
  | .head => "HEAD"
  | .post => "POST"
  | .put => "PUT"
  | .patch => "PATCH"
  | .delete => "DELETE"

/-- `http::Version`. -/
inductive Version where
  | http09 | http10 | http11 | h2 | h3
deriving DecidableEq

/-- The `Debug` rendering of `http::Version` used by the `{version:?}`
format specifier in the source. -/
def versionDebug : Version → String
  | .http09 => "HTTP/0.9"
  | .http10 => "HTTP/1.0"
  | .http11 => "HTTP/1.1"
  | .h2 => "HTTP/2.0"
  | .h3 => "HTTP/3.0"

/-- Canonical reason phrases of `http::StatusCode` (the subset used by
this development; every other code renders the `Display` fallback). -/
def canonicalReason (code : Nat) : String :=
  if code = 200 then "OK"
  else if code = 404 then "Not Found"
  else "<unknown status code>"

/-- `Display` rendering of `http::StatusCode`: the numeric code followed
by its canonical reason. -/
def statusDisplay (code : Nat) : String :=
  toString code ++ " " ++ canonicalReason code

/-- The parsed URL of a built request, as the interface the `url` crate
presents to `http_evidence.rs`: the full serialisation (`to_string`),
`host_str`, `path` and `query`. -/
structure Url where
  full : String
  host : Option String
  path : String
  query : Option String
deriving DecidableEq

/-- A built `reqwest::blocking::Request` as `http_evidence.rs` reads it:
method, parsed URL, version, header map and optional body bytes. -/
structure RequestM where
  method : Method
  url : Url
  version : Version
  headers : HeaderMapM
  body : Option (List Nat)
deriving DecidableEq

/-- A `reqwest::blocking::Response` as the engine reads it: version,
status, headers, and the result of `Response::bytes()` (`none` models a
transport-level body read failure). -/
structure ResponseM where
  version : Version
  status : Nat
  headers : HeaderMapM
  bytes : Option (List Nat)
deriving DecidableEq

/-- One formatted header line of `headers_to_evidence`'s loop body. -/
def headerLine (e : String × List Nat) : String :=
  match headerValueToStr e.2 with
  | some v => e.1 ++ ": " ++ v ++ "\r\n"
  | none => e.1 ++ ": <header data cannot be displayed>\r\n"

/-- `headers_to_evidence` from `src/http_evidence.rs`: fold over the
header map in stored order, appending one line per header. -/
def headers_to_evidence (headers : HeaderMapM) : String :=
  headers.entries.foldl (fun s e => s ++ headerLine e) ""

/-- `req_to_evidence` from `src/http_evidence.rs`: request line, headers
(with `accept` and `host` appended when missing), then the body section
when a body is present. -/
def req_to_evidence (req : RequestM) : String :=
  let url := req.url.path
  let query := match req.url.query with
    | some q => "?" ++ q
    | none => ""
  let headers0 :=
    if ¬ req.headers.containsKey "accept" then req.headers.append "accept" (strBytes "*/*")
    else req.headers
  let headers1 :=
    if ¬ headers0.containsKey "host" then
      match req.url.host with
      | some h => headers0.append "host" (strBytes h)
      | none => headers0
    else headers0
  let headers := headers_to_evidence headers1
  methodStr req.method ++ " " ++ url ++ query ++ " " ++ versionDebug req.version ++ "\r\n" ++
    headers ++
    (match req.body with
     | some b => "\r\n" ++ utf8Lossy b
     | none => "")

/-- The body text computed by `res_to_evidence`'s `*body = ...`
assignment: `String::from_utf8(..).unwrap_or placeholder` when the bytes
were retrieved, the placeholder when `Response::bytes()` failed. -/
def resBodyText : Option (List Nat) → String
  | some bs =>
    match utf8Decode bs with
    | some s => s
    | none => "<unable to decode response body>"
  | none => "<unable to decode response body>"

/-- `res_to_evidence` from `src/http_evidence.rs`.  The Rust function
writes the decoded body through an out-parameter and returns the evidence
text; the model returns the pair (evidence text, body text). -/
def res_to_evidence (res : ResponseM) : String × String :=
  let headers := headers_to_evidence res.headers
  let body := resBodyText res.bytes
  (versionDebug res.version ++ " " ++ statusDisplay res.status ++ "\r\n" ++ headers ++
    (if body.isEmpty then "" else "\r\n" ++ body),
   body)

/-- The `reqwest::blocking::RequestBuilder` held in the engine's
`builder` slot: the method and URL string fixed by the `prepare_*`
instruction, the headers appended so far, and the optional body. -/
structure BuilderM where
  method : Method
  url : String
  headers : HeaderMapM
  body : Option (List Nat)
deriving DecidableEq

/-- `RequestBuilder::header`: the key is parsed into a lowercase
`HeaderName` and the pair appended to the builder's header map. -/
def BuilderM.header (b : BuilderM) (key value : String) : BuilderM :=
  { b with headers := b.headers.append (asciiLower key) (strBytes value) }

/-- `RequestBuilder::body` with a `String` body: sets/replaces the body
bytes. -/
def BuilderM.setBody (b : BuilderM) (body : String) : BuilderM :=
  { b with body := some (strBytes body) }

/-- The request produced by `RequestBuilder::build_split` when the URL
parses to `u`: the builder's method, headers and body, with the default
request version HTTP/1.1.  (reqwest merges the client's default headers
only at `execute` time, after `build_split`, so the built request carries
exactly the headers appended through the builder.) -/
def buildReq (b : BuilderM) (u : Url) : RequestM :=
  ⟨b.method, u, .http11, b.headers, b.body⟩

/-- The error kinds the engine's instructions surface (each carried as a
message string in the source; `src/lib.rs` lines 96, 108, 138, 150, 166,
and the `?` propagations at lines 123, 126, 161). -/
inductive EngineError where
  | noPendingRequest
  | noPriorRequest
  | requestError
  | headerDecodeError
deriving DecidableEq

/-- The `Http` engine state from `src/lib.rs` (the reqwest client is
configuration, not state, and is represented by the oracle arguments of
`send`). -/
structure Http where
  last_status : Option Nat
  last_headers : Option HeaderMapM
  builder : Option BuilderM
deriving DecidableEq

/-- One `Evidence` record pushed by `send`
(`EvidenceContent::HttpRequestResponse` flattened into its two texts). -/
structure Evidence where
  label : String
  requestText : String
  responseText : String
deriving DecidableEq

deriving instance DecidableEq for Except

/-- The full outcome of one `send` invocation: resulting state, returned
value (`ok none` is the dry-run `Ok(())`, `ok (some body)` the response
body) or error, and the evidence records pushed. -/
structure SendResult where
  state : Http
  result : Except EngineError (Option String)
  evidence : List Evidence
deriving DecidableEq

/-- The six `prepare_*` instructions (`state.builder = Some(Mutex::new(
state.client.method(url)))`): replace the builder slot with a fresh
builder for the given method and URL. -/
def prepare (m : Method) (url : String) (st : Http) : Http :=
  { st with builder := some ⟨m, url, ⟨[]⟩, none⟩ }

/-- `add_header` from `src/lib.rs`: takes the builder, appends the header
and stores the builder back; errors without touching state when no
builder exists. -/
def add_header (key value : String) (st : Http) : Http × Except EngineError Unit :=
  match st.builder with
  | some b => ({ st with builder := some (b.header key value) }, .ok ())
  | none => (st, .error .noPendingRequest)

/-- `add_body` from `src/lib.rs`: takes the builder, sets its body and
stores it back; errors without touching state when no builder exists. -/
def add_body (body : String) (st : Http) : Http × Except EngineError Unit :=
  match st.builder with
  | some b => ({ st with builder := some (b.setBody body) }, .ok ())
  | none => (st, .error .noPendingRequest)

/-- `send` from `src/lib.rs`.  `buildFn` is the oracle for
`RequestBuilder::build_split`'s fallible request construction (URL
parsing and header validation live in external crates); `transport` is
the oracle for `Client::execute` (`none` models a transport error).  The
dry-run early return, the unconditional `state.builder.take()`, the
last-status/last-headers update, the evidence push and the returned body
follow the source line by line. -/
def send (dry_run : Bool) (buildFn : BuilderM → Option RequestM)
    (transport : RequestM → Option ResponseM) (st : Http) : SendResult :=
  if dry_run then ⟨st, .ok none, []⟩
  else
    match st.builder with
    | some b =>
      let st1 : Http := { st with builder := none }
      match buildFn b with
      | none => ⟨st1, .error .requestError, []⟩
      | some req =>
        let url := req.url.full
        let req_ev := req_to_evidence req
        match transport req with
        | none => ⟨st1, .error .requestError, []⟩
        | some res =>
          let st2 : Http :=
            { st1 with last_status := some res.status, last_headers := some res.headers }
          let p := res_to_evidence res
          ⟨st2, .ok (some p.2), [⟨"Request to " ++ url, req_ev, p.1⟩]⟩
    | none => ⟨st, .error .noPendingRequest, []⟩

/-- `last_status` from `src/lib.rs`: `i32::from(status.as_u16())`, or an
error when no request has completed. -/
def last_status (st : Http) : Except EngineError Int :=
  match st.last_status with
  | some s => .ok (Int.ofNat s)
  | none => .error .noPriorRequest

/-- `last_request_header` from `src/lib.rs`: case-insensitive lookup in
the cached headers; `h.to_str()?` propagates a decode error; absent
header yields `String::new()`; no cached headers is an error. -/
def last_request_header (key : String) (st : Http) : Except EngineError String :=
  match st.last_headers with
  | some headers =>
    match headers.get key with
    | some v =>
      match headerValueToStr v with
      | some s => .ok s
      | none => .error .headerDecodeError
    | none => .ok ""
  | none => .error .noPriorRequest

/-- Header block as the spec words it (§4.2 step 6): one
`Name: Value` line per header, in stored order, with the placeholder
substituted for a value that cannot be rendered as text.  Stated from the
spec's words, to be compared with the source's `headers_to_evidence`. -/
def headerLinesSpec : List (String × List Nat) → String
  | [] => ""
  | (name, v) :: rest =>
    (match headerValueToStr v with
     | some s => name ++ ": " ++ s ++ "\r\n"
     | none => name ++ ": <header data cannot be displayed>\r\n") ++ headerLinesSpec rest

/-- The `url` crate's parse of `http://example.com/search?q=test`
(serialisation, `host_str`, `path`, `query`). -/
def exampleUrl : Url :=
  ⟨"http://example.com/search?q=test", some "example.com", "/search", some "q=test"⟩

/-- The builder of spec §8's round-trip input: a prepared GET to
`http://example.com/search?q=test` with the single added header
`X-Test: 1` and no body. -/
def c3Builder : BuilderM :=
  BuilderM.header ⟨.get, "http://example.com/search?q=test", ⟨[]⟩, none⟩ "X-Test" "1"

/-- The request built from `c3Builder`. -/
def c3Req : RequestM := buildReq c3Builder exampleUrl

/-- Engine state holding `c3Builder` as the pending request. -/
def c3State : Http := ⟨none, none, some c3Builder⟩

/-- A 200 response with an empty body, used to drive `send` through the
round-trip input. -/
def c3Res : ResponseM := ⟨.http11, 200, ⟨[]⟩, some []⟩

/-- Build oracle that parses every builder's URL to `exampleUrl`. -/
def c3BuildFn : BuilderM → Option RequestM := fun b => some (buildReq b exampleUrl)

/-- A freshly prepared GET builder, used as a concrete witness input. -/
def wBuilder : BuilderM := ⟨.get, "http://example.com/search?q=test", ⟨[]⟩, none⟩

/-- The request built from `wBuilder`. -/
def wReq : RequestM := buildReq wBuilder exampleUrl

/-- A concrete witness response: 200, one text header, body bytes of
`"hi"`. -/
def wRes : ResponseM :=
  ⟨.http11, 200, ⟨[("content-type", strBytes "text/html")]⟩, some (strBytes "hi")⟩

/-- Engine state holding `wBuilder` as the pending request. -/
def wState : Http := ⟨none, none, some wBuilder⟩

/-- Cached headers containing a value (`0xC3`) that `HeaderValue::to_str`
cannot render as text. -/
def c7Headers : HeaderMapM := ⟨[("x-weird", [0xC3])]⟩

/-- Engine state after a completed request whose cached headers contain
the non-text value of `c7Headers`. -/
def c7State : Http := ⟨some 200, some c7Headers, none⟩

/-- Folding the header-line formatter from any accumulator yields the
accumulator followed by the per-line concatenation. -/
theorem foldl_headerLine (l : List (String × List Nat)) :
    ∀ acc : String, l.foldl (fun s e => s ++ headerLine e) acc = acc ++ headerLinesSpec l := by
  induction l with
  | nil => intro acc; simp [headerLinesSpec]
  | cons e rest ih =>
    intro acc
    obtain ⟨name, v⟩ := e
    rw [List.foldl_cons, ih, String.append_assoc]
    rfl

/-- The source's fold-based header block agrees with the spec's per-line
concatenation. -/
theorem headers_to_evidence_eq (hs : HeaderMapM) :
    headers_to_evidence hs = headerLinesSpec hs.entries := by
  have h := foldl_headerLine hs.entries ""
  rw [String.empty_append] at h
  exact h

/-- Splitting the response evidence text into its status line, header
block and optional body section. -/
theorem res_to_evidence_split (res : ResponseM) :
    (res_to_evidence res).1 =
      versionDebug res.version ++ " " ++ statusDisplay res.status ++ "\r\n" ++
        headers_to_evidence res.headers ++
        (if (res_to_evidence res).2 = "" then "" else "\r\n" ++ (res_to_evidence res).2) := by
  show versionDebug res.version ++ " " ++ statusDisplay res.status ++ "\r\n" ++
      headers_to_evidence res.headers ++
      (if (resBodyText res.bytes).isEmpty then "" else "\r\n" ++ resBodyText res.bytes) = _
  by_cases h : resBodyText res.bytes = ""
  · rw [show (res_to_evidence res).2 = resBodyText res.bytes from rfl, h]
    simp [String.isEmpty_iff]
  · rw [show (res_to_evidence res).2 = resBodyText res.bytes from rfl]
    have h2 : (resBodyText res.bytes).isEmpty = false := by
      rcases hb : (resBodyText res.bytes).isEmpty with _ | _
      · rfl
      · exact absurd ((String.isEmpty_iff _).mp hb) h
    rw [h2, if_neg h]
    rfl

/-- C1 (counterexample): a response body of the single byte `0xFF` is
retrieved and is not valid UTF-8, yet the body text is the placeholder
`<unable to decode response body>` rather than the lossy decoding
`�` of the original bytes. -/
theorem c1_body_decoding_cex :
    (res_to_evidence ⟨.http11, 200, ⟨[]⟩, some [0xFF]⟩).2 = "<unable to decode response body>" ∧
    utf8Decode [0xFF] = none ∧
    utf8Lossy [0xFF] = "�" ∧
    ("�" : String) ≠ "<unable to decode response body>" := by
  refine ⟨rfl, rfl, rfl, by decide⟩

/-- C1 (amended): for every non-dry-run `send` whose transport succeeds,
the body text (returned as the result) is the strict UTF-8 decoding of
the retrieved bytes when they are valid UTF-8, and the literal
placeholder `<unable to decode response body>` both when the retrieved
bytes are not valid UTF-8 and when the bytes cannot be retrieved at
all. -/
theorem c1_body_decoding_amended (bf : BuilderM → Option RequestM)
    (t : RequestM → Option ResponseM) (st : Http) (b : BuilderM) (req : RequestM)
    (res : ResponseM) (hb : st.builder = some b) (hbf : bf b = some req)
    (ht : t req = some res) :
    (send false bf t st).result = .ok (some (
      match res.bytes with
      | some bs =>
        match utf8Decode bs with
        | some s => s
        | none => "<unable to decode response body>"
      | none => "<unable to decode response body>")) := by
  simp [send, hb, hbf, ht, res_to_evidence, resBodyText]

/-- Witness for C1's amended theorem at a concrete successful send whose
response bytes are the UTF-8 of `"hi"`. -/
theorem c1_body_decoding_amended_witness :
    (send false (fun _ => some wReq) (fun _ => some wRes) wState).result = .ok (some "hi") := by
  have h := c1_body_decoding_amended (fun _ => some wReq) (fun _ => some wRes)
    wState wBuilder wReq wRes rfl rfl rfl
  rw [h]
  decide

/-- C2: every non-dry-run `send` in a state holding a pending request
removes it before the fallible build/transport steps, so the builder slot
is empty afterwards whatever the build and transport oracles do. -/
theorem c2_builder_consumed (bf : BuilderM → Option RequestM)
    (t : RequestM → Option ResponseM) (st : Http) (b : BuilderM)
    (hb : st.builder = some b) :
    (send false bf t st).state.builder = none := by
  unfold send
  rw [hb]
  cases hbf : bf b with
  | none => simp [hbf]
  | some req =>
    cases ht : t req with
    | none => simp [hbf, ht]
    | some res => simp [hbf, ht]

/-- Witness for C2 at a concrete state and failing oracles. -/
theorem c2_builder_consumed_witness :
    (send false (fun _ => none) (fun _ => none) wState).state.builder = none :=
  c2_builder_consumed _ _ wState wBuilder rfl

/-- C3 (counterexample): on spec §8's input the request evidence text is
not the spec's string — the synthesized `accept` and `host` lines do not
precede the user-added header line, because `HeaderMap::append` places
them after it. -/
theorem c3_request_evidence_cex :
    req_to_evidence c3Req ≠
      "GET /search?q=test HTTP/1.1\r\naccept: */*\r\nhost: example.com\r\nx-test: 1\r\n" := by
  decide

/-- C3 (amended): on spec §8's input — a prepared GET to
`http://example.com/search?q=test` with the single added header
`X-Test: 1` and no body — the request evidence text produced by `send`
equals `GET /search?q=test HTTP/1.1\r\nx-test: 1\r\naccept: */*\r\n`
`host: example.com\r\n`: the user-added header line precedes the
synthesized `accept` and `host` lines. -/
theorem c3_request_evidence_amended :
    req_to_evidence c3Req =
      "GET /search?q=test HTTP/1.1\r\nx-test: 1\r\naccept: */*\r\nhost: example.com\r\n" ∧
    (send false c3BuildFn (fun _ => some c3Res) c3State).evidence.map Evidence.requestText =
      ["GET /search?q=test HTTP/1.1\r\nx-test: 1\r\naccept: */*\r\nhost: example.com\r\n"] := by
  refine ⟨by decide, by decide⟩

/-- C4: a dry-run `send` returns success with no output value, leaves the
whole state (builder, last status, last headers) unchanged, emits no
evidence, and — being the same result for every transport oracle —
performs no transport call. -/
theorem c4_dry_run_noop (bf : BuilderM → Option RequestM)
    (t : RequestM → Option ResponseM) (st : Http) :
    send true bf t st = ⟨st, .ok none, []⟩ := rfl

/-- C5: `last_status`/`last_headers` are untouched by `prepare`,
`add_header` and `add_body`; a `send` either leaves both fields unchanged
or — exactly when it is not a dry run, a pending request exists, the
build succeeds and the transport succeeds — writes both fields together
from the response and returns success; and a `send` that fails with any
error leaves both fields at their prior values. -/
theorem c5_last_outcome_integrity :
    (∀ m u st, (prepare m u st).last_status = st.last_status ∧
      (prepare m u st).last_headers = st.last_headers) ∧
    (∀ k v st, (add_header k v st).1.last_status = st.last_status ∧
      (add_header k v st).1.last_headers = st.last_headers) ∧
    (∀ bo st, (add_body bo st).1.last_status = st.last_status ∧
      (add_body bo st).1.last_headers = st.last_headers) ∧
    (∀ dr bf t st,
      ((send dr bf t st).state.last_status = st.last_status ∧
        (send dr bf t st).state.last_headers = st.last_headers) ∨
      (∃ b req res, dr = false ∧ st.builder = some b ∧ bf b = some req ∧ t req = some res ∧
        (send dr bf t st).state.last_status = some res.status ∧
        (send dr bf t st).state.last_headers = some res.headers ∧
        (send dr bf t st).result = .ok (some (res_to_evidence res).2))) ∧
    (∀ bf t st e, (send false bf t st).result = .error e →
      (send false bf t st).state.last_status = st.last_status ∧
      (send false bf t st).state.last_headers = st.last_headers) := by
  refine ⟨fun m u st => ⟨rfl, rfl⟩, ?_, ?_, ?_, ?_⟩
  · intro k v st
    cases hb : st.builder <;> simp [add_header, hb]
  · intro bo st
    cases hb : st.builder <;> simp [add_body, hb]
  · intro dr bf t st
    cases dr with
    | true => exact Or.inl ⟨rfl, rfl⟩
    | false =>
      cases hb : st.builder with
      | none => exact Or.inl (by simp [send, hb])
      | some b =>
        cases hbf : bf b with
        | none => exact Or.inl (by simp [send, hb, hbf])
        | some req =>
          cases ht : t req with
          | none => exact Or.inl (by simp [send, hb, hbf, ht])
          | some res =>
            exact Or.inr ⟨b, req, res, rfl, rfl, hbf, ht, by simp [send, hb, hbf, ht],
              by simp [send, hb, hbf, ht], by simp [send, hb, hbf, ht]⟩
  · intro bf t st e herr
    cases hb : st.builder with
    | none => simp [send, hb]
    | some b =>
      cases hbf : bf b with
      | none => simp [send, hb, hbf]
      | some req =>
        cases ht : t req with
        | none => simp [send, hb, hbf, ht]
        | some res =>
          rw [show (send false bf t st).result =
            .ok (some (res_to_evidence res).2) from by simp [send, hb, hbf, ht]] at herr
          cases herr

/-- Witness for C5's failed-send conjunct: a send with no pending request
fails and leaves the previously cached outcome fields untouched. -/
theorem c5_last_outcome_integrity_witness :
    (send false (fun _ => none) (fun _ => none) ⟨some 7, some ⟨[]⟩, none⟩).state.last_status =
      some 7 ∧
    (send false (fun _ => none) (fun _ => none) ⟨some 7, some ⟨[]⟩, none⟩).state.last_headers =
      some ⟨[]⟩ :=
  c5_last_outcome_integrity.2.2.2.2 _ _ _ .noPendingRequest rfl

/-- C6: with no pending request, `add_header` and `add_body` fail with
the no-pending-request error and return the state unchanged. -/
theorem c6_ops_require_pending (k v bo : String) (st : Http) (h : st.builder = none) :
    add_header k v st = (st, .error .noPendingRequest) ∧
    add_body bo st = (st, .error .noPendingRequest) := by
  unfold add_header add_body
  rw [h]
  exact ⟨rfl, rfl⟩

/-- Witness for C6 at the empty engine state. -/
theorem c6_ops_require_pending_witness :
    add_header "a" "b" ⟨none, none, none⟩ = (⟨none, none, none⟩, .error .noPendingRequest) ∧
    add_body "c" ⟨none, none, none⟩ = (⟨none, none, none⟩, .error .noPendingRequest) :=
  c6_ops_require_pending "a" "b" "c" ⟨none, none, none⟩ rfl

/-- C7 (counterexample): with a prior request whose cached headers hold
the matching value `[0xC3]` under `x-weird`, `last_request_header`
applied to `X-Weird` does not return that value (nor the empty string):
it fails with the header-decode error, because `HeaderValue::to_str`
rejects the non-visible-ASCII byte. -/
theorem c7_last_header_cex :
    c7State.last_headers = some c7Headers ∧
    c7Headers.get "X-Weird" = some [0xC3] ∧
    last_request_header "X-Weird" c7State = .error .headerDecodeError := by
  refine ⟨rfl, by decide, by decide⟩

/-- C7 (amended): `last_request_header` performs a case-insensitive
lookup in the cached header set; with a prior request it returns the
matching header's value when that value renders as visible-ASCII text,
fails with the header-decode error when it does not, and returns the
empty string (not an error) when no header matches; with no completed
request it fails with the no-prior-request error, as does
`last_status`. -/
theorem c7_last_header_amended (key : String) (st : Http) (hs : HeaderMapM) :
    (st.last_headers = some hs → hs.get key = none → last_request_header key st = .ok "") ∧
    (∀ v s, st.last_headers = some hs → hs.get key = some v → headerValueToStr v = some s →
      last_request_header key st = .ok s) ∧
    (∀ v, st.last_headers = some hs → hs.get key = some v → headerValueToStr v = none →
      last_request_header key st = .error .headerDecodeError) ∧
    (st.last_headers = none → last_request_header key st = .error .noPriorRequest) ∧
    (st.last_status = none → last_status st = .error .noPriorRequest) ∧
    last_request_header "Content-Type"
      ⟨some 200, some ⟨[("content-type", strBytes "text/html")]⟩, none⟩ = .ok "text/html" := by
  refine ⟨?_, ?_, ?_, ?_, ?_, by decide⟩
  · intro hh hg
    simp [last_request_header, hh, hg]
  · intro v s hh hg hv
    simp [last_request_header, hh, hg, hv]
  · intro v hh hg hv
    simp [last_request_header, hh, hg, hv]
  · intro hh
    simp [last_request_header, hh]
  · intro hh
    simp [last_status, hh]

/-- Witness for C7's amended theorem: before any completed request,
`last_request_header` fails with the no-prior-request error. -/
theorem c7_last_header_amended_witness :
    last_request_header "x" ⟨none, none, none⟩ = .error .noPriorRequest :=
  (c7_last_header_amended "x" ⟨none, none, none⟩ ⟨[]⟩).2.2.2.1 rfl

/-- C8: the response evidence text is the status line, then one
`Name: Value` line per header in stored order (with the placeholder
substituted for a value that cannot be rendered as text, inside
`headerLinesSpec`), and it ends with a `\r\n`-prefixed body section
exactly when the decoded body text is non-empty. -/
theorem c8_response_evidence_format (res : ResponseM) :
    (res_to_evidence res).1 =
      versionDebug res.version ++ " " ++ statusDisplay res.status ++ "\r\n" ++
        headerLinesSpec res.headers.entries ++
        (if (res_to_evidence res).2 = "" then ""
         else "\r\n" ++ (res_to_evidence res).2) := by
  rw [res_to_evidence_split res, headers_to_evidence_eq]

/-- C9: a dry-run `send` succeeds even in a state with no pending
request — the dry-run early return precedes the no-pending-request
check, so it never fails with that error. -/
theorem c9_dry_run_without_pending (bf : BuilderM → Option RequestM)
    (t : RequestM → Option ResponseM) (ls : Option Nat) (lh : Option HeaderMapM) :
    (send true bf t ⟨ls, lh, none⟩).result = .ok none ∧
    (send true bf t ⟨ls, lh, none⟩).result ≠ .error .noPendingRequest :=
  ⟨rfl, by simp [send]⟩

/-- C10: every successful non-dry-run `send` returns exactly the body
text that `res_to_evidence` decoded, emits one evidence record whose
response text is `res_to_evidence`'s evidence output, and that evidence
output embeds the very same body text as its body section. -/
theorem c10_result_matches_evidence_body (bf : BuilderM → Option RequestM)
    (t : RequestM → Option ResponseM) (st : Http) (b : BuilderM) (req : RequestM)
    (res : ResponseM) (hb : st.builder = some b) (hbf : bf b = some req)
    (ht : t req = some res) :
    (send false bf t st).result = .ok (some (res_to_evidence res).2) ∧
    (send false bf t st).evidence =
      [⟨"Request to " ++ req.url.full, req_to_evidence req, (res_to_evidence res).1⟩] ∧
    (res_to_evidence res).1 =
      versionDebug res.version ++ " " ++ statusDisplay res.status ++ "\r\n" ++
        headers_to_evidence res.headers ++
        (if (res_to_evidence res).2 = "" then ""
         else "\r\n" ++ (res_to_evidence res).2) := by
  refine ⟨by simp [send, hb, hbf, ht], by simp [send, hb, hbf, ht], res_to_evidence_split res⟩

/-- Witness for C10 at a concrete successful send. -/
theorem c10_result_matches_evidence_body_witness :
    (send false (fun _ => some wReq) (fun _ => some wRes) wState).result =
      .ok (some (res_to_evidence wRes).2) ∧
    (send false (fun _ => some wReq) (fun _ => some wRes) wState).evidence =
      [⟨"Request to " ++ wReq.url.full, req_to_evidence wReq, (res_to_evidence wRes).1⟩] ∧
    (res_to_evidence wRes).1 =
      versionDebug wRes.version ++ " " ++ statusDisplay wRes.status ++ "\r\n" ++
        headers_to_evidence wRes.headers ++
        (if (res_to_evidence wRes).2 = "" then ""
         else "\r\n" ++ (res_to_evidence wRes).2) :=
  c10_result_matches_evidence_body _ _ wState wBuilder wReq wRes rfl rfl rfl
